import Mathlib

/-!
Shallow embedding of the api-gateway reverse proxy
(src/cmd/apigateway/main.go): the `director`, `modifyFunc` and `errFunc`
hooks of `NewReverseProxy`, together with the string splitting/joining
helpers they use.
-/

/-- One registry-reported endpoint, as returned by the consul catalog
lookup: `ServiceAddress` (host string) and `ServicePort` (a Go `int`). -/
structure Instance where
  serviceAddress : String
  servicePort : Int
  deriving DecidableEq, Repr

/-- The mutable URL portion of the inbound request: `r.URL.Scheme`,
`r.URL.Host`, `r.URL.Path`. -/
structure URL where
  scheme : String
  host : String
  path : String
  deriving DecidableEq, Repr

/-- The inbound `*http.Request` state the director reads and mutates:
its URL, its header map and `r.RemoteAddr`. -/
structure Request where
  url : URL
  headers : List (String × String)
  remoteAddr : String
  deriving DecidableEq, Repr

/-- `http.Header.Set(k, v)`: replace any existing entries for key `k`
with the single value `v`. -/
def headerSet (hs : List (String × String)) (k v : String) :
    List (String × String) :=
  (k, v) :: hs.filter (fun p => p.1 != k)

/-- Look a key up in a header map (first match wins). -/
def headerGet (hs : List (String × String)) (k : String) : Option String :=
  (hs.find? (fun p => p.1 == k)).map (fun p => p.2)

/-- Worker for `splitSlash`: walks the characters, cutting at each
literal `/`, accumulating the current segment in reverse. -/
def splitSlashAux : List Char → List Char → List String
  | [], acc => [String.mk acc.reverse]
  | c :: cs, acc =>
      if c = '/' then String.mk acc.reverse :: splitSlashAux cs []
      else splitSlashAux cs (c :: acc)

/-- Go `strings.Split(s, "/")`: split `s` around each `/`.
`splitSlash "" = [""]`, `splitSlash "/" = ["", ""]`,
`splitSlash "/a/b" = ["", "a", "b"]`. -/
def splitSlash (s : String) : List String :=
  splitSlashAux s.data []

/-- Go `strings.Join(xs, "/")`. -/
def joinSlash : List String → String
  | [] => ""
  | [x] => x
  | x :: y :: xs => x ++ "/" ++ joinSlash (y :: xs)

/-- The instance-selection index `rand.Int() % len(result)`;
`rnd` stands for the (non-negative) value returned by `rand.Int()`. -/
def selectIndex (rnd n : Nat) : Nat := rnd % n

/-- Result of one run of the director.  `req` is the request state after
the director returns (`none` models a runtime panic, i.e. the
out-of-bounds `pathArray[1]` access).  `lookups` is the ghost trace of
the service names the director queried the registry for, in order.
`target` is ghost instrumentation recording the instance whose
address:port was written into the URL (`none` when the director returned
before selecting one, so the request was not aimed at any instance). -/
structure DirOut where
  req : Option Request
  lookups : List String
  target : Option Instance
  deriving DecidableEq, Repr

/-- The `director` closure of `NewReverseProxy`.  The registry client is
abstracted as a function from service name to either a communication
error or the instance list (`client.Catalog().Service(name, "", nil)`);
`rnd` abstracts the value of `rand.Int()`. -/
def director (registry : String → Except String (List Instance))
    (rnd : Nat) (r : Request) : DirOut :=
  let reqPath := r.url.path
  if reqPath = "" then
    ⟨some r, [], none⟩
  else
    let pathArray := splitSlash reqPath
    match pathArray[1]? with
    | none => ⟨none, [], none⟩
    | some serviceName =>
      match registry serviceName with
      | Except.error _ => ⟨some r, [serviceName], none⟩
      | Except.ok result =>
        if hlen : result.length = 0 then
          ⟨some r, [serviceName], none⟩
        else
          let destPath := joinSlash (pathArray.drop 2)
          let tgt := result.get
            ⟨selectIndex rnd result.length,
             Nat.mod_lt rnd (Nat.pos_of_ne_zero hlen)⟩
          ⟨some ⟨⟨"http",
                  tgt.serviceAddress ++ ":" ++ toString tgt.servicePort,
                  "/" ++ destPath⟩,
                 headerSet r.headers "X-Real-Ip" r.remoteAddr,
                 r.remoteAddr⟩,
           [serviceName], some tgt⟩

/-- The status-code condition of `modifyFunc`, verbatim from the source:
`resp.StatusCode != 200 || resp.StatusCode != 201 ||
 resp.StatusCode != 203 || resp.StatusCode != 204`. -/
def statusCond (c : Nat) : Bool :=
  (c != 200) || (c != 201) || (c != 203) || (c != 204)

/-- The `*http.Response` state `modifyFunc` reads and mutates: status
code, body bytes, `ContentLength` and the header map. -/
structure RespState where
  statusCode : Nat
  body : List Nat
  contentLength : Int
  headers : List (String × String)
  deriving DecidableEq, Repr

/-- The then-branch of `modifyFunc`: read the body (`readErr` models an
`ioutil.ReadAll` failure), build `newPayload` as `""` prepended to the
old payload, and rewrite body, `ContentLength` and the `Content-Length`
header. -/
def rewriteBody (readErr : Option String) (resp : RespState) :
    Except String RespState :=
  match readErr with
  | some e => Except.error e
  | none =>
    let oldPayload := resp.body
    let newPayload := ([] : List Nat) ++ oldPayload
    Except.ok ⟨resp.statusCode, newPayload,
               Int.ofNat newPayload.length,
               headerSet resp.headers "Content-Length"
                 (toString (Int.ofNat newPayload.length))⟩

/-- The `modifyFunc` closure of `NewReverseProxy`. -/
def modifyFunc (readErr : Option String) (resp : RespState) :
    Except String RespState :=
  if statusCond resp.statusCode then rewriteBody readErr resp
  else Except.ok resp

/-- Observable outcome of one run of `errFunc`: return without writing
(`silent`), `http.Error` with 404 or 500 and the given body, or a
runtime panic. -/
inductive ErrOutcome where
  | silent : ErrOutcome
  | notFound : String → ErrOutcome
  | serverError : String → ErrOutcome
  | panic : ErrOutcome
  deriving DecidableEq, Repr

/-- The `errFunc` closure of `NewReverseProxy`.  `exchErr` is the text of
the exchange error the proxy passed in as the `err` parameter.  Note the
Go source writes `result, _, err := client.Catalog().Service(...)`: since
`result` is the only new variable and `err` was declared in the same
block (the parameter list), this short declaration REASSIGNS `err`, so
the exchange error is lost; after a successful re-query `err` is nil and
the final `err.Error()` call panics. -/
def errFunc (registry : String → Except String (List Instance))
    (reqPath : String) (exchErr : String) : ErrOutcome :=
  if reqPath = "" then
    ErrOutcome.silent
  else
    match (splitSlash reqPath)[1]? with
    | none => ErrOutcome.panic
    | some serviceName =>
      match registry serviceName with
      | Except.error _ => ErrOutcome.silent
      | Except.ok result =>
        let err : Option String := none
        if result.length = 0 then
          ErrOutcome.notFound (serviceName ++ " Not Found")
        else
          match err with
          | some e => ErrOutcome.serverError ("" ++ e)
          | none => ErrOutcome.panic

/-! Concrete data used by the witnesses. -/

/-- A registry holding one instance for the `orders` service. -/
def ordersRegistry : String → Except String (List Instance) :=
  fun s => if s = "orders" then Except.ok [⟨"10.0.0.5", 9090⟩]
           else Except.ok []

/-- A reachable registry holding no instances at all. -/
def emptyRegistry : String → Except String (List Instance) :=
  fun _ => Except.ok []

/-- A registry whose every lookup fails with a communication error. -/
def downRegistry : String → Except String (List Instance) :=
  fun _ => Except.error "connection refused"

/-- A registry holding one instance for every name, the empty name
included. -/
def rootRegistry : String → Except String (List Instance) :=
  fun _ => Except.ok [⟨"10.0.0.7", 8080⟩]

/-- `GET /orders/123/items` from the spec's concrete scenario. -/
def ordersRequest : Request :=
  ⟨⟨"", "gateway.local", "/orders/123/items"⟩, [], "203.0.113.9:4242"⟩

/-- A request whose URL path is the empty string. -/
def emptyPathRequest : Request :=
  ⟨⟨"", "gateway.local", ""⟩, [("Accept", "*/*")], "203.0.113.9:4242"⟩

/-- A request whose URL path is exactly the root path. -/
def rootRequest : Request :=
  ⟨⟨"", "gateway.local", "/"⟩, [], "203.0.113.9:4242"⟩

/-! Helper lemmas shared between the claim theorems. -/

/-- The chained-OR status condition holds for every status code. -/
theorem statusCond_true_aux (c : Nat) : statusCond c = true := by
  simp only [statusCond, Bool.or_eq_true, bne_iff_ne, ne_eq]
  omega

/-- Setting a header makes it readable back. -/
theorem headerGet_headerSet (hs : List (String × String)) (k v : String) :
    headerGet (headerSet hs k v) k = some v := by
  simp [headerGet, headerSet]

/-- `splitSlashAux` never returns the empty list. -/
theorem splitSlashAux_length_pos (cs acc : List Char) :
    1 ≤ (splitSlashAux cs acc).length := by
  induction cs generalizing acc with
  | nil => simp [splitSlashAux]
  | cons c cs ih =>
      by_cases h : c = '/'
      · simp [splitSlashAux, h]
      · simpa [splitSlashAux, h] using ih (c :: acc)

/-- If the remaining characters contain a slash, the split has at least
two fields. -/
theorem splitSlashAux_length_of_mem (cs acc : List Char)
    (h : '/' ∈ cs) : 2 ≤ (splitSlashAux cs acc).length := by
  induction cs generalizing acc with
  | nil => cases h
  | cons c cs ih =>
      by_cases hc : c = '/'
      · have := splitSlashAux_length_pos cs ([] : List Char)
        simp [splitSlashAux, hc]
        omega
      · have hmem : '/' ∈ cs := by
          cases h with
          | head => exact absurd rfl hc
          | tail _ h => exact h
        simpa [splitSlashAux, hc] using ih (c :: acc) hmem

/-- If the remaining characters contain no slash, the split is the one
segment collecting everything. -/
theorem splitSlashAux_eq_of_not_mem (cs acc : List Char)
    (h : '/' ∉ cs) :
    splitSlashAux cs acc = [String.mk (acc.reverse ++ cs)] := by
  induction cs generalizing acc with
  | nil => simp [splitSlashAux]
  | cons c cs ih =>
      have hc : c ≠ '/' := fun hc => h (hc ▸ List.mem_cons_self c cs)
      have hmem : '/' ∉ cs := fun hm => h (List.mem_cons_of_mem c hm)
      simp [splitSlashAux, hc, ih (c :: acc) hmem]

/-- A slash-free string splits into the singleton list holding itself. -/
theorem splitSlash_eq_singleton (s : String) (h : '/' ∉ s.data) :
    splitSlash s = [s] := by
  have := splitSlashAux_eq_of_not_mem s.data [] h
  simpa [splitSlash] using this

/-- Splitting the empty path yields one empty field. -/
theorem splitSlash_empty : splitSlash "" = [""] := by decide

/-- A path that splits into at least two fields is non-empty. -/
theorem path_ne_empty_of_split (p svc : String) (rest : List String)
    (h : splitSlash p = "" :: svc :: rest) : p ≠ "" := by
  intro h0
  rw [h0, splitSlash_empty] at h
  simp at h

/-! Claim theorems. -/

/-- C4: for every backend response, regardless of its status code, the
status-code condition `StatusCode != 200 || StatusCode != 201 ||
StatusCode != 203 || StatusCode != 204` evaluates to true, so the
rewrite branch of `modifyFunc` executes for every response. -/
theorem statusCond_always_true :
    (∀ c : Nat, statusCond c = true) ∧
    ∀ (readErr : Option String) (resp : RespState),
      modifyFunc readErr resp = rewriteBody readErr resp := by
  refine ⟨statusCond_true_aux, fun readErr resp => ?_⟩
  simp [modifyFunc, statusCond_true_aux]

/-- C5: for every inbound request whose path is the empty string, the
director returns immediately: it performs no registry lookup, selects no
instance, and leaves the request entirely unmodified. -/
theorem director_empty_path_noop
    (registry : String → Except String (List Instance)) (rnd : Nat)
    (r : Request) (h : r.url.path = "") :
    director registry rnd r = ⟨some r, [], none⟩ := by
  simp [director, h]

/-- Witness for C5 at a concrete request with the empty path. -/
theorem director_empty_path_noop_witness :
    director ordersRegistry 0 emptyPathRequest =
      ⟨some emptyPathRequest, [], none⟩ :=
  director_empty_path_noop ordersRegistry 0 emptyPathRequest rfl

/-- C10: for every backend response whose body reads without error, the
rewrite of `modifyFunc` is the identity on the body bytes, and it sets
both `ContentLength` and the `Content-Length` header to the exact byte
length of that body. -/
theorem modifyFunc_identity_rewrite (resp : RespState) :
    ∃ out, modifyFunc none resp = Except.ok out ∧
      out.statusCode = resp.statusCode ∧
      out.body = resp.body ∧
      out.contentLength = Int.ofNat resp.body.length ∧
      headerGet out.headers "Content-Length" =
        some (toString (Int.ofNat resp.body.length)) := by
  refine ⟨⟨resp.statusCode, resp.body, Int.ofNat resp.body.length,
           headerSet resp.headers "Content-Length"
             (toString (Int.ofNat resp.body.length))⟩,
         ?_, rfl, rfl, rfl, headerGet_headerSet _ _ _⟩
  simp [modifyFunc, statusCond_true_aux, rewriteBody]

/-- C3 evaluation: at a concrete failing input (exchange error
`connection refused`, path `/orders/123`, registry re-query returning
one instance) the error hook reaches `err.Error()` with a nil `err` and
panics, and in particular never writes a 500 response carrying any
body. -/
theorem errFunc_transport_error_evaluation :
    errFunc ordersRegistry "/orders/123" "connection refused" =
      ErrOutcome.panic ∧
    ∀ body, errFunc ordersRegistry "/orders/123" "connection refused" ≠
      ErrOutcome.serverError body := by
  have h : errFunc ordersRegistry "/orders/123" "connection refused" =
      ErrOutcome.panic := by decide
  exact ⟨h, fun body hb => by rw [h] at hb; exact ErrOutcome.noConfusion hb⟩

/-- C2: for every failed exchange whose path names a service, if the
error hook's registry re-query succeeds with zero instances, the error
hook responds 404 with body `svc Not Found` (which contains `svc`). -/
theorem errFunc_zero_instances_404
    (registry : String → Except String (List Instance))
    (reqPath exchErr svc : String) (hne : reqPath ≠ "")
    (hsvc : (splitSlash reqPath)[1]? = some svc)
    (hreg : registry svc = Except.ok []) :
    errFunc registry reqPath exchErr =
      ErrOutcome.notFound (svc ++ " Not Found") := by
  simp [errFunc, hne, hsvc, hreg]

/-- Witness for C2: `GET /orders/123` against a registry with zero
instances for `orders` yields the 404 outcome with body
`orders Not Found`. -/
theorem errFunc_zero_instances_404_witness :
    errFunc emptyRegistry "/orders/123" "connection refused" =
      ErrOutcome.notFound ("orders" ++ " Not Found") :=
  errFunc_zero_instances_404 emptyRegistry "/orders/123"
    "connection refused" "orders" (by decide) (by decide) rfl

/-- C6: for every request whose registry lookup in the director fails
with a communication error, the director leaves the request unmodified
and selects no instance to forward to (the ghost `target` stays
`none`). -/
theorem director_registry_error_noop
    (registry : String → Except String (List Instance)) (rnd : Nat)
    (r : Request) (svc e : String) (hne : r.url.path ≠ "")
    (hsvc : (splitSlash r.url.path)[1]? = some svc)
    (hreg : registry svc = Except.error e) :
    director registry rnd r = ⟨some r, [svc], none⟩ := by
  simp [director, hne, hsvc, hreg]

/-- Witness for C6 at a concrete request against an unreachable
registry. -/
theorem director_registry_error_noop_witness :
    director downRegistry 7 ordersRequest =
      ⟨some ordersRequest, ["orders"], none⟩ :=
  director_registry_error_noop downRegistry 7 ordersRequest "orders"
    "connection refused" (by decide) (by decide) rfl

/-- C7: when the registry result holds exactly one instance, the
selection index `rand.Int() % len(result)` is 0 for every value of the
random source, so the director routes to that single instance
regardless of `rnd`. -/
theorem director_single_instance_deterministic
    (registry : String → Except String (List Instance)) (rnd : Nat)
    (r : Request) (svc : String) (rest : List String) (inst : Instance)
    (hsplit : splitSlash r.url.path = "" :: svc :: rest)
    (hreg : registry svc = Except.ok [inst]) :
    selectIndex rnd 1 = 0 ∧
    (director registry rnd r).target = some inst ∧
    ∀ rnd2 : Nat, director registry rnd2 r = director registry rnd r := by
  have hne : r.url.path ≠ "" := path_ne_empty_of_split _ svc rest hsplit
  have hdir : ∀ n : Nat, director registry n r =
      ⟨some ⟨⟨"http",
              inst.serviceAddress ++ ":" ++ toString inst.servicePort,
              "/" ++ joinSlash rest⟩,
             headerSet r.headers "X-Real-Ip" r.remoteAddr,
             r.remoteAddr⟩,
       [svc], some inst⟩ := by
    intro n
    simp [director, hne, hsplit, hreg, selectIndex]
  exact ⟨Nat.mod_one rnd, by rw [hdir rnd],
         fun rnd2 => by rw [hdir rnd2, hdir rnd]⟩

/-- Witness for C7: two different random values route `GET
/orders/123/items` to the same single instance. -/
theorem director_single_instance_deterministic_witness :
    selectIndex 12345 1 = 0 ∧
    (director ordersRegistry 12345 ordersRequest).target =
      some ⟨"10.0.0.5", 9090⟩ ∧
    ∀ rnd2 : Nat, director ordersRegistry rnd2 ordersRequest =
      director ordersRegistry 12345 ordersRequest :=
  director_single_instance_deterministic ordersRegistry 12345
    ordersRequest "orders" ["123", "items"] ⟨"10.0.0.5", 9090⟩
    (by decide) rfl

/-- C1: for every inbound request whose path has the form
`/{svc}/{rest...}` and for which the registry lookup for `svc` succeeds
with at least one instance, the director rewrites the request so that
its scheme is `http`, its host is `address:port` of one of the returned
instances, and its path is `/` followed by the segments after `svc`
rejoined with `/`. -/
theorem director_routes
    (registry : String → Except String (List Instance)) (rnd : Nat)
    (r : Request) (svc : String) (rest : List String)
    (result : List Instance)
    (hsplit : splitSlash r.url.path = "" :: svc :: rest)
    (hreg : registry svc = Except.ok result)
    (hres : result ≠ []) :
    ∃ inst ∈ result,
      director registry rnd r =
        ⟨some ⟨⟨"http",
                inst.serviceAddress ++ ":" ++ toString inst.servicePort,
                "/" ++ joinSlash rest⟩,
               headerSet r.headers "X-Real-Ip" r.remoteAddr,
               r.remoteAddr⟩,
         [svc], some inst⟩ := by
  have hne : r.url.path ≠ "" := path_ne_empty_of_split _ svc rest hsplit
  have hlen0 : ¬ result.length = 0 := by
    simpa [List.length_eq_zero] using hres
  refine ⟨result.get ⟨selectIndex rnd result.length,
            Nat.mod_lt rnd (Nat.pos_of_ne_zero hlen0)⟩,
          List.get_mem _ _ _, ?_⟩
  simp [director, hne, hsplit, hreg, hlen0]

/-- Witness for C1: the spec's concrete scenario, `GET
/orders/123/items` with a single instance `{10.0.0.5, 9090}` for
`orders`, forwarded as `GET http://10.0.0.5:9090/123/items`. -/
theorem director_routes_witness :
    ∃ inst ∈ [(⟨"10.0.0.5", 9090⟩ : Instance)],
      director ordersRegistry 0 ordersRequest =
        ⟨some ⟨⟨"http",
                inst.serviceAddress ++ ":" ++ toString inst.servicePort,
                "/" ++ joinSlash ["123", "items"]⟩,
               headerSet ordersRequest.headers "X-Real-Ip"
                 ordersRequest.remoteAddr,
               ordersRequest.remoteAddr⟩,
         ["orders"], some inst⟩ :=
  director_routes ordersRegistry 0 ordersRequest "orders"
    ["123", "items"] [⟨"10.0.0.5", 9090⟩] (by decide) rfl (by decide)

/-- C8 counterexample: for the root-only path `/` against a registry
holding an instance for the empty name, the director does perform a
registry lookup and does modify the request, refuting the claimed
no-lookup no-op passthrough. -/
theorem director_root_counterexample :
    (director rootRegistry 0 rootRequest).lookups ≠ [] ∧
    (director rootRegistry 0 rootRequest).req ≠ some rootRequest := by
  decide

/-- C8 amended: for every request whose path is exactly `/`, the
director performs one registry lookup with the empty string as service
identifier, and the request is left unmodified when that lookup fails
or returns zero instances. -/
theorem director_root_amended
    (registry : String → Except String (List Instance)) (rnd : Nat)
    (r : Request) (h : r.url.path = "/") :
    (director registry rnd r).lookups = [""] ∧
    (∀ e, registry "" = Except.error e →
        director registry rnd r = ⟨some r, [""], none⟩) ∧
    (registry "" = Except.ok [] →
        director registry rnd r = ⟨some r, [""], none⟩) := by
  have hne : r.url.path ≠ "" := by simp [h]
  have hsp : splitSlash r.url.path = ["", ""] := by rw [h]; decide
  refine ⟨?_, fun e hreg => by simp [director, hne, hsp, hreg],
          fun hreg => by simp [director, hne, hsp, hreg]⟩
  rcases hreg : registry "" with e | result
  · simp [director, hne, hsp, hreg]
  · by_cases hl : result.length = 0
    · simp [director, hne, hsp, hreg, hl]
    · simp [director, hne, hsp, hreg, hl]

/-- Witness for C8's amended claim at the root request against a
reachable registry with zero instances. -/
theorem director_root_amended_witness :
    (director emptyRegistry 5 rootRequest).lookups = [""] ∧
    (∀ e, emptyRegistry "" = Except.error e →
        director emptyRegistry 5 rootRequest =
          ⟨some rootRequest, [""], none⟩) ∧
    (emptyRegistry "" = Except.ok [] →
        director emptyRegistry 5 rootRequest =
          ⟨some rootRequest, [""], none⟩) :=
  director_root_amended emptyRegistry 5 rootRequest rfl

/-- C9: splitting a non-empty path on `/` yields at least two fields
when the path contains a `/` (so the unconditional `pathArray[1]` access
is in bounds), but yields a single field when it contains none, making
index 1 out of bounds: both the director and the error hook then
panic. -/
theorem pathArray_index_bounds (s : String) (hne : s ≠ "") :
    ('/' ∈ s.data → 2 ≤ (splitSlash s).length) ∧
    ('/' ∉ s.data →
      splitSlash s = [s] ∧
      ∀ (registry : String → Except String (List Instance)) (rnd : Nat)
        (r : Request) (exchErr : String), r.url.path = s →
        (director registry rnd r).req = none ∧
        errFunc registry s exchErr = ErrOutcome.panic) := by
  refine ⟨fun hmem => splitSlashAux_length_of_mem s.data [] hmem,
          fun hnmem => ?_⟩
  have hsp : splitSlash s = [s] := splitSlash_eq_singleton s hnmem
  refine ⟨hsp, fun registry rnd r exchErr hr => ⟨?_, ?_⟩⟩
  · simp [director, hr, hne, hsp]
  · simp [errFunc, hne, hsp]

/-- Witness for C9 at the slash-free non-empty path `abc`. -/
theorem pathArray_index_bounds_witness :
    ('/' ∈ "abc".data → 2 ≤ (splitSlash "abc").length) ∧
    ('/' ∉ "abc".data →
      splitSlash "abc" = ["abc"] ∧
      ∀ (registry : String → Except String (List Instance)) (rnd : Nat)
        (r : Request) (exchErr : String), r.url.path = "abc" →
        (director registry rnd r).req = none ∧
        errFunc registry "abc" exchErr = ErrOutcome.panic) :=
  pathArray_index_bounds "abc" (by decide)
